import Mathlib

/-!
Shallow embedding of the hy-florist backend order/payment reconciliation core.

Conventions of the embedding:
* money amounts are integers counted in cents (the source works in Decimal
  with two decimal places, which is exact, so the cents embedding is exact);
* timestamps are natural-number clock ticks supplied by the caller (`now`);
* the database is an explicit list of rows, in insertion order;
* Django exceptions are modelled by an error type, fallible operations
  return `Except` or `Option`;
* outcomes record the database after the request, the HTTP response and the
  number of notification (email) dispatch attempts.
-/

/-- Python-level exceptions that the modelled code can raise. -/
inductive PyError
  | typeError
  | integrityError
  | doesNotExist
deriving DecidableEq

deriving instance DecidableEq for Except

/-- Python truthiness of an optional string (None and the empty string are falsy). -/
def pyTruthy : Option String → Bool
  | none => false
  | some s => !(s == "")

/-- Product row (products/models.py, class Product): only the fields the order
flow reads; price is Decimal(2dp) in the source, held here in cents. -/
structure Product where
  id : Nat
  name : String
  priceCents : Int
deriving DecidableEq

/-- One cart entry of the checkout payload (OrderItemSerializer). -/
structure CartItem where
  product_id : Nat
  quantity : Nat
deriving DecidableEq

/-- Order row (orders/models.py, class Order). Monetary fields in cents,
timestamps as optional clock ticks. -/
structure Order where
  order_number : String
  customer_name : String
  customer_email : String
  customer_phone : String
  delivery_address : String
  payment_method : String
  payment_status : String
  stripe_payment_intent_id : Option String
  status : String
  subtotal : Int
  delivery_fee : Int
  discount : Int
  total : Int
  paid_at : Option Nat
  payment_verified_at : Option Nat
  confirmed_at : Option Nat
  payment_currency : String
  exchange_rate : Option Rat
  total_usd : Option Int
deriving DecidableEq

/-- Order.mark_as_paid (orders/models.py lines 184-206): early return when the
order is already paid; otherwise set the reference if absent, flip the two
status fields and stamp both payment timestamps. -/
def Order.mark_as_paid (o : Order) (payment_intent_id : Option String) (now : Nat) : Order :=
  if o.payment_status = "paid" then o
  else
    let o1 :=
      if pyTruthy payment_intent_id && !pyTruthy o.stripe_payment_intent_id then
        { o with stripe_payment_intent_id := payment_intent_id }
      else o
    { o1 with
        payment_status := "paid"
        status := "processing"
        paid_at := some now
        payment_verified_at := some now }

/-- Order.confirm_order (orders/models.py lines 208-212): stamp confirmed_at
once; a second call leaves it unchanged. -/
def Order.confirm_order (o : Order) (now : Nat) : Order :=
  if o.confirmed_at = none then { o with confirmed_at := some now } else o

/-- Declared uniqueness of a column in the Order table. -/
structure ColumnDecl where
  name : String
  unique : Bool
deriving DecidableEq

/-- Column uniqueness declarations of the Order model (orders/models.py):
order_number carries unique=True (line 24); stripe_payment_intent_id
(lines 81-86) carries blank=True and null=True but no unique flag, so it
takes the Django default, unique=False. -/
def orderUniqueColumns : List ColumnDecl :=
  [⟨"order_number", true⟩, ⟨"stripe_payment_intent_id", false⟩]

/-- Value an Order row holds in one of the declared columns. -/
def colValue (o : Order) : String → Option String
  | "order_number" => some o.order_number
  | "stripe_payment_intent_id" => o.stripe_payment_intent_id
  | _ => none

/-- A row violates the declared storage constraints when it repeats a stored
non-null value in a column declared unique (SQL null values never collide). -/
def uniqueViolation (db : List Order) (o : Order) : Bool :=
  orderUniqueColumns.any (fun c =>
    c.unique && db.any (fun x =>
      (colValue x c.name).isSome && colValue x c.name == colValue o c.name))

/-- Storage-layer insert of an Order row: IntegrityError exactly on violation
of a declared uniqueness constraint, otherwise the row is appended. -/
def insertOrder (db : List Order) (o : Order) : Except PyError (List Order) :=
  if uniqueViolation db o then .error .integrityError else .ok (db ++ [o])

/-- Persisting field updates of an existing row (Order.save with
update_fields): the row with the same order_number is replaced. -/
def saveOrder (db : List Order) (o : Order) : List Order :=
  db.map (fun x => if x.order_number = o.order_number then o else x)

/-- Rows whose external payment reference equals the given id
(Order.objects.filter(stripe_payment_intent_id=...)). -/
def ordersWithPi (db : List Order) (piId : String) : List Order :=
  db.filter (fun o => o.stripe_payment_intent_id == some piId)

/-- filter(...).first() under the Order Meta ordering -created_at: the most
recently inserted matching row. -/
def qsFirstByPi (db : List Order) (piId : String) : Option Order :=
  (ordersWithPi db piId).getLast?

/-- Checkout payload (CheckoutSerializer fields). The outcome of the Django
EmailField format check is framework code outside the repository and is
carried as an input flag; the delivery date is a day number compared against
the day number of today. -/
structure CheckoutPayload where
  customer_name : String
  customer_email : String
  customer_email_wellformed : Bool
  customer_phone : String
  delivery_address : String
  delivery_notes : String
  delivery_date : Nat
  payment_method : String
  items : List CartItem
deriving DecidableEq

/-- CheckoutSerializer.validate_delivery_date (serializers.py 117-136): at
least two days ahead of today and at most ninety days ahead. -/
def validate_delivery_date (today d : Nat) : Bool :=
  !decide (d < today + 2) && !decide (today + 90 < d)

/-- Product.objects.get by primary key, as the catalog lookup. -/
def findProduct (catalog : List Product) (pid : Nat) : Option Product :=
  catalog.find? (fun p => p.id == pid)

/-- CheckoutSerializer.validate_items (serializers.py 138-169): non-empty
cart, at most fifty entries, no duplicated product id, every product found,
every quantity at most one hundred. -/
def validate_items (catalog : List Product) (items : List CartItem) : Bool :=
  !items.isEmpty &&
  decide (items.length ≤ 50) &&
  ((items.map (fun i => i.product_id)).eraseDups.length == (items.map (fun i => i.product_id)).length) &&
  items.all (fun i => (findProduct catalog i.product_id).isSome) &&
  items.all (fun i => decide (i.quantity ≤ 100))

/-- CheckoutSerializer.is_valid: the declared field constraints
(serializers.py 62-115) together with the two validator methods. -/
def checkout_serializer_valid (catalog : List Product) (today : Nat) (p : CheckoutPayload) : Bool :=
  decide (2 ≤ p.customer_name.length) && decide (p.customer_name.length ≤ 255) &&
  p.customer_email_wellformed &&
  decide (8 ≤ p.customer_phone.length) && decide (p.customer_phone.length ≤ 20) &&
  decide (10 ≤ p.delivery_address.length) &&
  decide (p.delivery_notes.length ≤ 500) &&
  (p.payment_method == "stripe" || p.payment_method == "apple_pay" || p.payment_method == "payme") &&
  p.items.all (fun i => decide (1 ≤ i.quantity)) &&
  validate_delivery_date today p.delivery_date &&
  validate_items catalog p.items

/-- Subtotal of the cart in cents, looking every product up in the catalog;
none models the uncaught Product.DoesNotExist of a missing id. -/
def cartSubtotalCents (catalog : List Product) : List CartItem → Option Int
  | [] => some 0
  | i :: rest =>
    match findProduct catalog i.product_id, cartSubtotalCents catalog rest with
    | some p, some s => some (p.priceCents * (i.quantity : Int) + s)
    | _, _ => none

/-- CheckoutSerializer.calculate_order_total (serializers.py 171-199):
returns (subtotal, delivery_fee, discount, total); the fee and the discount
are both the constant zero in current business rules and
total = subtotal + delivery_fee - discount. -/
def calculate_order_total (catalog : List Product) (items : List CartItem) :
    Option (Int × Int × Int × Int) :=
  match cartSubtotalCents catalog items with
  | none => none
  | some sub => some (sub, 0, 0, sub + 0 - 0)

/-- Keyword parameters accepted by CheckoutSerializer.create_order
(serializers.py line 202: only stripe_payment_intent_id, defaulted). -/
def create_order_params : List String := ["stripe_payment_intent_id"]

/-- Keyword arguments passed to create_order by ConfirmOrderView.post
(views.py 332-335). -/
def confirm_call_kwargs : List String := ["stripe_payment_intent_id", "payment_method"]

/-- Keyword arguments passed to create_order by CreatePayMeOrderView.post
(payme_views.py 147-153). -/
def payme_call_kwargs : List String :=
  ["stripe_payment_intent_id", "payment_method", "payment_currency", "exchange_rate", "total_usd"]

/-- Body of CheckoutSerializer.create_order (serializers.py 202-255): totals
are recomputed, the Order row is built in pending state with the validated
payment method and the passed reference, the order number is generated in
Order.save (models.py 171-182, supplied here as freshNumber), and the row
goes through the storage-layer insert. -/
def create_order_body (db : List Order) (catalog : List Product) (p : CheckoutPayload)
    (piArg : Option String) (freshNumber : String) : Except PyError (List Order × Order) :=
  match calculate_order_total catalog p.items with
  | none => .error .doesNotExist
  | some (sub, fee, disc, total) =>
    let o : Order :=
      { order_number := freshNumber
        customer_name := p.customer_name
        customer_email := p.customer_email
        customer_phone := p.customer_phone
        delivery_address := p.delivery_address
        payment_method := p.payment_method
        payment_status := "pending"
        stripe_payment_intent_id := piArg
        status := "pending"
        subtotal := sub
        delivery_fee := fee
        discount := disc
        total := total
        paid_at := none
        payment_verified_at := none
        confirmed_at := none
        payment_currency := "HKD"
        exchange_rate := none
        total_usd := none }
    match insertOrder db o with
    | .error e => .error e
    | .ok db2 => .ok (db2, o)

/-- A Python keyword call of create_order: passing any keyword argument the
signature does not accept raises TypeError before the body runs (so before
any database write); otherwise the body executes. -/
def call_create_order (kwargs : List String) (db : List Order) (catalog : List Product)
    (p : CheckoutPayload) (piArg : Option String) (freshNumber : String) :
    Except PyError (List Order × Order) :=
  if !kwargs.all (fun k => create_order_params.contains k) then .error .typeError
  else create_order_body db catalog p piArg freshNumber

/-- Stripe payment intent as retrieved and expanded in ConfirmOrderView.post
(views.py 199-254): amount in cents, the gateway status, the payment method
object type and its card wallet sub-type when present. -/
structure StripeIntent where
  id : String
  status : String
  amountCents : Int
  payment_method_type : Option String
  wallet_type : Option String
deriving DecidableEq

/-- Payment method detection of ConfirmOrderView.post (views.py 216-254):
an alipay type wins, a card type is refined by the wallet sub-type, any other
type goes through the mapping whose default is card_pay. -/
def detect_payment_method (pmType walletType : Option String) : String :=
  match pmType with
  | none => "card_pay"
  | some t =>
    if t = "alipay" then "alipay"
    else if t = "card" then
      match walletType with
      | some w =>
        if w = "google_pay" then "google_pay"
        else if w = "apple_pay" then "apple_pay"
        else "card_pay"
      | none => "card_pay"
    else if t = "google_pay" then "google_pay"
    else if t = "apple_pay" then "apple_pay"
    else "card_pay"

/-- Amount verification gate of ConfirmOrderView.post (views.py 318): the
difference between the captured amount and the recomputed expected total is
rejected when it exceeds one cent, Decimal 0.01. -/
def amount_mismatch (paidCents expectedCents : Int) : Bool :=
  decide (1 < |paidCents - expectedCents|)

/-- HTTP responses the order endpoints can produce. -/
inductive HttpResponse
  | ok (o : Order)
  | created (o : Order)
  | badRequest (tag : String)
  | serverError
deriving DecidableEq

/-- Result of one request: database after the request, response, number of
confirmation email dispatch attempts. -/
structure ConfirmOutcome where
  db : List Order
  response : HttpResponse
  emailAttempts : Nat
deriving DecidableEq

/-- ConfirmOrderView.post (views.py 186-382). Inputs: the stored orders, the
catalog, the day number of today, the payment_intent_id request field, the
intent the gateway returned for it (none models InvalidRequestError), the
checkout payload, the order number Order.save would generate, and the clock.
Steps, as in the source: require the id; verify the intent is succeeded and
detect the method; return an existing order for the reference unchanged with
200; validate the payload; verify the captured amount against the recomputed
total within one cent; create the order through create_order and mark it
paid and confirmed, catching IntegrityError by returning the existing row;
any other exception becomes the generic 500. The confirmation email is sent
only after a successful creation. -/
def confirm_order_post (db : List Order) (catalog : List Product) (today : Nat)
    (payment_intent_id : Option String) (intent : Option StripeIntent)
    (payload : CheckoutPayload) (freshNumber : String) (now : Nat) : ConfirmOutcome :=
  if !pyTruthy payment_intent_id then ⟨db, .badRequest "payment_intent_id_required", 0⟩
  else
    match intent with
    | none => ⟨db, .badRequest "invalid_payment_data", 0⟩
    | some pi =>
      if pi.status ≠ "succeeded" then ⟨db, .badRequest "payment_not_completed", 0⟩
      else
        let piId := payment_intent_id.getD ""
        let _detected := detect_payment_method pi.payment_method_type pi.wallet_type
        match qsFirstByPi db piId with
        | some existing => ⟨db, .ok existing, 0⟩
        | none =>
          if !checkout_serializer_valid catalog today payload then
            ⟨db, .badRequest "validation_error", 0⟩
          else
            match calculate_order_total catalog payload.items with
            | none => ⟨db, .serverError, 0⟩
            | some (_sub, _fee, _disc, expected) =>
              if amount_mismatch pi.amountCents expected then
                ⟨db, .badRequest "amount_mismatch", 0⟩
              else
                match call_create_order confirm_call_kwargs db catalog payload (some piId)
                    freshNumber with
                | .error .integrityError =>
                  match ordersWithPi db piId with
                  | [winner] => ⟨db, .ok winner, 0⟩
                  | _ => ⟨db, .serverError, 0⟩
                | .error _ => ⟨db, .serverError, 0⟩
                | .ok (db1, o) =>
                  let o2 := (o.mark_as_paid (some piId) now).confirm_order now
                  ⟨saveOrder db1 o2, .created o2, 1⟩

/-- Responses of the PayMe endpoints. okOrder is the 200 already-confirmed
branch returning the serialized order alone; okConfirmed is the 200 returned
after a fresh confirmation; createdPayMe is the 201 of order creation. -/
inductive PayMeResponse
  | okOrder (o : Order)
  | okConfirmed (o : Order)
  | createdPayMe (o : Order)
  | badRequest (tag : String)
  | notFound
  | serverError
deriving DecidableEq

/-- Result of one PayMe endpoint request. -/
structure PayMeOutcome where
  db : List Order
  response : PayMeResponse
  emailAttempts : Nat
deriving DecidableEq

/-- CreatePayMeOrderView.post (payme_views.py 127-187): validate the payload,
reject a non-positive total, then call create_order with the payme keyword
arguments; any exception becomes the generic 500. -/
def create_payme_order_post (db : List Order) (catalog : List Product) (today : Nat)
    (payload : CheckoutPayload) (freshNumber : String) : PayMeOutcome :=
  if !checkout_serializer_valid catalog today payload then
    ⟨db, .badRequest "validation_error", 0⟩
  else
    match calculate_order_total catalog payload.items with
    | none => ⟨db, .serverError, 0⟩
    | some (_sub, _fee, _disc, total) =>
      if decide (total ≤ 0) then ⟨db, .badRequest "invalid_amount", 0⟩
      else
        match call_create_order payme_call_kwargs db catalog payload none freshNumber with
        | .error _ => ⟨db, .serverError, 0⟩
        | .ok (db1, o) =>
          let o2 := { o with payment_status := "pending", status := "pending" }
          ⟨saveOrder db1 o2, .createdPayMe o2, 0⟩

/-- ConfirmPayMePaymentView.post (payme_views.py 213-262): require the order
number; look the order up; an already-paid order is answered 200 with the
serialized order before any method check; a non-payme order is answered 400;
otherwise mark paid, confirm, and attempt the confirmation email, whose
failure is swallowed. -/
def confirm_payme_post (db : List Order) (order_number : Option String) (now : Nat) :
    PayMeOutcome :=
  if !pyTruthy order_number then ⟨db, .badRequest "order_number_required", 0⟩
  else
    let n := order_number.getD ""
    match db.filter (fun o => o.order_number == n) with
    | [] => ⟨db, .notFound, 0⟩
    | [o] =>
      if o.payment_status = "paid" then ⟨db, .okOrder o, 0⟩
      else if o.payment_method ≠ "payme" then ⟨db, .badRequest "not_payme_order", 0⟩
      else
        let o2 := (o.mark_as_paid none now).confirm_order now
        ⟨saveOrder db o2, .okConfirmed o2, 1⟩
    | _ => ⟨db, .serverError, 0⟩

/-- Result of the admin confirmation helper: database, the returned success
flag and message, and the number of email dispatch attempts. -/
structure AdminResult where
  db : List Order
  success : Bool
  msg : String
  emailAttempts : Nat
deriving DecidableEq

/-- admin.py helper for PayMe confirmation (lines 37-71): a non-payme order
is refused with a warning before anything else; an already-paid order
succeeds trivially; otherwise mark paid, confirm, and attempt the email,
degrading to a success-with-warning on email failure. -/
def do_confirm_payme (db : List Order) (o : Order) (emailOk : Bool) (now : Nat) : AdminResult :=
  if o.payment_method ≠ "payme" then ⟨db, false, "not_a_payme_order", 0⟩
  else if o.payment_status = "paid" then ⟨db, true, "already_confirmed", 0⟩
  else
    let o2 := (o.mark_as_paid none now).confirm_order now
    let db2 := saveOrder db o2
    if emailOk then ⟨db2, true, "confirmed_and_email_sent", 1⟩
    else ⟨db2, true, "confirmed_but_email_failed", 1⟩

/-- StripeWebhookEvent row (orders/models.py 287-312): event_id is unique. -/
structure WebhookEventRec where
  event_id : String
  event_type : String
deriving DecidableEq

/-- Persisted state the webhook endpoint touches. -/
structure WebhookDb where
  orders : List Order
  events : List WebhookEventRec
deriving DecidableEq

/-- A verified Stripe event: identifier, type, and the payment intent id of
its data object (the charge of a refund event may carry none). -/
structure StripeEvent where
  id : String
  etype : String
  payment_intent : Option String
deriving DecidableEq

/-- StripeWebhookEvent.objects.get_or_create on the unique event_id
(views.py 494-497): returns the stored rows and whether a row was created. -/
def webhook_get_or_create (events : List WebhookEventRec) (eid et : String) :
    List WebhookEventRec × Bool :=
  if events.any (fun e => e.event_id == eid) then (events, false)
  else (events ++ [⟨eid, et⟩], true)

/-- StripeWebhookView.handle_payment_success (views.py 514-533): look the
order up by reference (get semantics: one row updates, no row is a logged
no-op, several rows raise) and mark it paid unless already paid. The second
component is false when an exception escapes the handler. -/
def handle_payment_success (orders : List Order) (piId : Option String) (now : Nat) :
    List Order × Bool :=
  match piId with
  | none => (orders, false)
  | some pi =>
    match orders.filter (fun o => o.stripe_payment_intent_id == some pi) with
    | [] => (orders, true)
    | [o] =>
      if o.payment_status ≠ "paid" then (saveOrder orders (o.mark_as_paid (some pi) now), true)
      else (orders, true)
    | _ => (orders, false)

/-- StripeWebhookView.handle_payment_failure (views.py 535-545): the guard is
payment_status different from failed, so any non-failed order, an already
paid one included, is moved to failed. -/
def handle_payment_failure (orders : List Order) (piId : Option String) :
    List Order × Bool :=
  match piId with
  | none => (orders, false)
  | some pi =>
    match orders.filter (fun o => o.stripe_payment_intent_id == some pi) with
    | [] => (orders, true)
    | [o] =>
      if o.payment_status ≠ "failed" then
        (saveOrder orders { o with payment_status := "failed", status := "failed" }, true)
      else (orders, true)
    | _ => (orders, false)

/-- StripeWebhookView.handle_refund (views.py 547-559): a falsy payment
intent on the charge returns silently; otherwise any non-refunded order is
moved to refunded. -/
def handle_refund (orders : List Order) (piId : Option String) : List Order × Bool :=
  if !pyTruthy piId then (orders, true)
  else
    let pi := piId.getD ""
    match orders.filter (fun o => o.stripe_payment_intent_id == some pi) with
    | [] => (orders, true)
    | [o] =>
      if o.payment_status ≠ "refunded" then
        (saveOrder orders { o with payment_status := "refunded", status := "refunded" }, true)
      else (orders, true)
    | _ => (orders, false)

/-- StripeWebhookView.post (views.py 466-510). A none event models a payload
or signature rejected by stripe.Webhook.construct_event, answered 400 with no
state touched. Otherwise the dedup record is inserted by get_or_create on the
event identifier before dispatch; when the record already existed the handler
returns 200 at once without processing. A handler exception surfaces as 500,
the dedup record staying recorded. -/
def stripe_webhook_post (db : WebhookDb) (event : Option StripeEvent) (now : Nat) :
    WebhookDb × Nat :=
  match event with
  | none => (db, 400)
  | some ev =>
    let gor := webhook_get_or_create db.events ev.id ev.etype
    if !gor.2 then (db, 200)
    else
      let hres :=
        if ev.etype == "payment_intent.succeeded" then
          handle_payment_success db.orders ev.payment_intent now
        else if ev.etype == "payment_intent.payment_failed" then
          handle_payment_failure db.orders ev.payment_intent
        else if ev.etype == "charge.refunded" then
          handle_refund db.orders ev.payment_intent
        else (db.orders, true)
      (⟨hres.1, gor.1⟩, if hres.2 then 200 else 500)

/-- CurrencyRate row (currency/models.py): Decimal rate held as a rational. -/
structure CurrencyRate where
  base_currency : String
  target_currency : String
  rate : Rat
deriving DecidableEq

/-- Fallback exchange rate (currency_service.py line 14), Decimal 7.80. -/
def FALLBACK_RATE : Rat := 78 / 10

/-- get_latest_rate (currency_service.py 144-177): most recent stored rate
for the pair; the store list is held newest first, matching the CurrencyRate
Meta ordering -id, so find? is filter(...).first(). -/
def get_latest_rate (store : List CurrencyRate) (base target : String) : Option Rat :=
  (store.find? (fun r => r.base_currency == base && r.target_currency == target)).map
    (fun r => r.rate)

/-- get_exchange_rate (currency_service.py 180-197), the payment-processing
rate lookup: when the store has no USD to HKD record the hard-coded
FALLBACK_RATE is returned in its place after a warning log; the function
never fails. -/
def get_exchange_rate (store : List CurrencyRate) : Rat :=
  match get_latest_rate store "USD" "HKD" with
  | none => FALLBACK_RATE
  | some r => r

/-- Concrete order fixture used by witnesses and counterexamples. -/
def baseOrder : Order :=
  { order_number := "HYF-20260101-AAAAA"
    customer_name := "Alice Wong"
    customer_email := "alice@example.com"
    customer_phone := "85291234567"
    delivery_address := "10 Flower Road, Hong Kong"
    payment_method := "card_pay"
    payment_status := "pending"
    stripe_payment_intent_id := none
    status := "pending"
    subtotal := 25000
    delivery_fee := 0
    discount := 0
    total := 25000
    paid_at := none
    payment_verified_at := none
    confirmed_at := none
    payment_currency := "HKD"
    exchange_rate := none
    total_usd := none }

/-- First of two rows sharing a non-null payment reference. -/
def orderDup1 : Order := { baseOrder with stripe_payment_intent_id := some "pi_dup" }

/-- Second row with the same reference but a fresh order number. -/
def orderDup2 : Order := { orderDup1 with order_number := "HYF-20260101-BBBBB" }

/-- Product A of the worked example: price 100.00, that is 10000 cents. -/
def productA : Product := ⟨1, "Product A", 10000⟩

/-- Product B of the worked example: price 50.00, that is 5000 cents. -/
def productB : Product := ⟨2, "Product B", 5000⟩

/-- Catalog of the worked example. -/
def catalogAB : List Product := [productA, productB]

/-- Cart of the worked example: two of product A, one of product B. -/
def cartAB : List CartItem := [⟨1, 2⟩, ⟨2, 1⟩]

/-- Valid checkout payload over the worked-example cart. -/
def payloadAB : CheckoutPayload :=
  { customer_name := "Alice Wong"
    customer_email := "alice@example.com"
    customer_email_wellformed := true
    customer_phone := "85291234567"
    delivery_address := "10 Flower Road, Hong Kong"
    delivery_notes := ""
    delivery_date := 10
    payment_method := "stripe"
    items := cartAB }

/-- Succeeded card intent over the worked-example reference with the given
captured amount in cents. -/
def intentAt (paid : Int) : StripeIntent :=
  ⟨"pi_test", "succeeded", paid, some "card", none⟩

/-- Paid peer-transfer order fixture: confirmed once already, at tick 3. -/
def paidPayMeOrder : Order :=
  { baseOrder with
      payment_method := "payme", payment_status := "paid", status := "processing",
      paid_at := some 3, payment_verified_at := some 3, confirmed_at := some 3 }

/-- Paid card order fixture: settled through the gateway, not a PayMe order. -/
def paidCardOrder : Order :=
  { baseOrder with
      payment_status := "paid", status := "processing",
      stripe_payment_intent_id := some "pi_card", paid_at := some 2,
      payment_verified_at := some 2, confirmed_at := some 2 }

/-- Pending card order fixture. -/
def pendingCardOrder : Order := { baseOrder with stripe_payment_intent_id := some "pi_card2" }

/-- C1. The claim asserts a storage-layer uniqueness constraint on the
reference column of Order. In orders/models.py lines 81-86 the field
stripe_payment_intent_id carries no unique flag, so the declared schema has
unique = false for it and the storage layer accepts two distinct persisted
orders carrying the same non-null reference without any IntegrityError: only
the application-level existence check of views.py line 276 stands between a
payment reference and duplicate orders. -/
theorem reference_uniqueness_not_enforced :
    ((orderUniqueColumns.find? (fun c => c.name == "stripe_payment_intent_id")).map
        (fun c => c.unique)) = some false ∧
    insertOrder [] orderDup1 = .ok [orderDup1] ∧
    insertOrder [orderDup1] orderDup2 = .ok [orderDup1, orderDup2] ∧
    orderDup1 ≠ orderDup2 ∧
    orderDup1.stripe_payment_intent_id = some "pi_dup" ∧
    orderDup2.stripe_payment_intent_id = some "pi_dup" := by decide

/-- C4. A Stripe payment-failure webhook for the reference of an order whose
payment_status is paid does not leave it paid: handle_payment_failure
(views.py 535-545) guards only against an order already failed, so the paid
order is downgraded to failed, contradicting the claim. -/
theorem failed_webhook_downgrades_paid_order :
    ({ baseOrder with
        payment_status := "paid", status := "processing",
        stripe_payment_intent_id := some "pi_fail",
        paid_at := some 1, payment_verified_at := some 1 } : Order).payment_status = "paid" ∧
    (stripe_webhook_post
        ⟨[{ baseOrder with
            payment_status := "paid", status := "processing",
            stripe_payment_intent_id := some "pi_fail",
            paid_at := some 1, payment_verified_at := some 1 }], []⟩
        (some ⟨"evt_fail_1", "payment_intent.payment_failed", some "pi_fail"⟩) 5).1.orders
      = [{ baseOrder with
            payment_status := "failed", status := "failed",
            stripe_payment_intent_id := some "pi_fail",
            paid_at := some 1, payment_verified_at := some 1 }] := by decide

/-- C5 counterexample. With no exchange-rate record on file the
payment-processing lookup does not fail as the claim requires: the total
function get_exchange_rate silently returns the hard-coded FALLBACK_RATE,
Decimal 7.80. -/
theorem empty_store_returns_fallback :
    get_latest_rate [] "USD" "HKD" = none ∧
    get_exchange_rate [] = FALLBACK_RATE ∧
    FALLBACK_RATE = 78 / 10 := ⟨rfl, rfl, rfl⟩

/-- C5 amended. Whenever the Currency Reference Store holds no USD to HKD
record, the checkout-path rate lookup substitutes the hard-coded fallback
rate 7.80 instead of failing. -/
theorem missing_rate_uses_fallback (store : List CurrencyRate)
    (h : get_latest_rate store "USD" "HKD" = none) :
    get_exchange_rate store = FALLBACK_RATE := by
  unfold get_exchange_rate
  rw [h]

/-- C5 amended, witness at the empty store. -/
theorem missing_rate_uses_fallback_witness :
    get_latest_rate [] "USD" "HKD" = none ∧ get_exchange_rate [] = FALLBACK_RATE :=
  ⟨rfl, missing_rate_uses_fallback [] rfl⟩

/-- The worked-example payload passes the checkout validation. -/
theorem payloadAB_valid : checkout_serializer_valid catalogAB 0 payloadAB = true := by decide

/-- The worked-example cart totals 250.00: subtotal 2 times 100.00 plus
1 times 50.00, zero delivery fee, zero discount. -/
theorem calcAB : calculate_order_total catalogAB cartAB = some (25000, 0, 0, 25000) := by decide

/-- Evaluation of the synchronous confirmation flow over the worked-example
cart with a symbolic captured amount: every gate before the amount check
passes, so the outcome is the amount-mismatch rejection exactly when the
gate fires, and otherwise the creation step fails with the generic 500
(create_order refuses the extra keyword argument). -/
theorem confirm_flow_amount_gate (paid : Int) :
    confirm_order_post [] catalogAB 0 (some "pi_test") (some (intentAt paid)) payloadAB
        "HYF-20260101-CCCCC" 0
      = ⟨[], if amount_mismatch paid 25000 then .badRequest "amount_mismatch"
              else .serverError, 0⟩ := by
  have h0 : pyTruthy (some "pi_test") = true := by decide
  have h4 : calculate_order_total catalogAB payloadAB.items = some (25000, 0, 0, 25000) := by
    decide
  have h5 : call_create_order confirm_call_kwargs [] catalogAB payloadAB (some "pi_test")
      "HYF-20260101-CCCCC" = .error .typeError := by decide
  simp [confirm_order_post, intentAt, qsFirstByPi, ordersWithPi, payloadAB_valid, h0, h4, h5]
  split <;> rfl

/-- C6 counterexample. Over the worked-example cart with expected total
250.00, a captured amount of 249.99 differs by exactly one cent, which the
gate of views.py line 318 tolerates: the request is not rejected for amount
mismatch, refuting the claim that 249.99 or less must be rejected. -/
theorem captured_24999_passes_amount_gate :
    amount_mismatch 24999 25000 = false ∧
    (confirm_order_post [] catalogAB 0 (some "pi_test") (some (intentAt 24999)) payloadAB
        "HYF-20260101-CCCCC" 0).response ≠ .badRequest "amount_mismatch" := by decide

/-- C6 amended. The amount verification of confirm_order rejects exactly when
the captured amount differs from the recomputed expected total by strictly
more than one cent; over the worked-example cart, with expected total 250.00,
a captured 249.98 is rejected for amount mismatch while 249.99, 250.00 and
250.01 pass the amount verification (on the current code those requests then
fail at the order-creation step with the generic 500 of the C3 defect). -/
theorem amount_gate_one_cent_tolerance :
    (∀ paid expected : Int, amount_mismatch paid expected = true ↔ 1 < |paid - expected|) ∧
    calculate_order_total catalogAB cartAB = some (25000, 0, 0, 25000) ∧
    (∀ paid : Int,
      (confirm_order_post [] catalogAB 0 (some "pi_test") (some (intentAt paid)) payloadAB
          "HYF-20260101-CCCCC" 0).response = .badRequest "amount_mismatch"
        ↔ 1 < |paid - 25000|) ∧
    (confirm_order_post [] catalogAB 0 (some "pi_test") (some (intentAt 24998)) payloadAB
        "HYF-20260101-CCCCC" 0).response = .badRequest "amount_mismatch" ∧
    (confirm_order_post [] catalogAB 0 (some "pi_test") (some (intentAt 24999)) payloadAB
        "HYF-20260101-CCCCC" 0).response ≠ .badRequest "amount_mismatch" ∧
    (confirm_order_post [] catalogAB 0 (some "pi_test") (some (intentAt 25000)) payloadAB
        "HYF-20260101-CCCCC" 0).response ≠ .badRequest "amount_mismatch" ∧
    (confirm_order_post [] catalogAB 0 (some "pi_test") (some (intentAt 25001)) payloadAB
        "HYF-20260101-CCCCC" 0).response ≠ .badRequest "amount_mismatch" := by
  refine ⟨?_, calcAB, ?_, by decide, by decide, by decide, by decide⟩
  · intro p e
    simp [amount_mismatch]
  · intro paid
    rw [confirm_flow_amount_gate]
    by_cases h : 1 < |paid - 25000|
    · simp [amount_mismatch, h]
    · simp [amount_mismatch, h]

/-- C2. Two confirm_order requests racing on the same fresh payment
reference do not resolve to exactly one persisted order. The first request
performs no database write at all: its create_order call raises TypeError
before any insert, so the 500 is returned and the store stays empty; the
second request, whose existence check also saw no order, fails the same way.
Because neither request writes, this sequential composition coincides with
every interleaving of the two requests' check and create phases. No
IntegrityError fallback can ever fire for a duplicated reference anyway,
since the reference column carries no uniqueness constraint (C1). The final
store holds zero orders for the reference instead of the claimed exactly
one, and the loser receives an error instead of the winner's order. -/
theorem concurrent_confirms_persist_no_order :
    confirm_order_post [] catalogAB 0 (some "pi_test") (some (intentAt 25000)) payloadAB
        "HYF-20260101-RRRRR" 0 = ⟨[], .serverError, 0⟩ ∧
    confirm_order_post
        (confirm_order_post [] catalogAB 0 (some "pi_test") (some (intentAt 25000)) payloadAB
          "HYF-20260101-RRRRR" 0).db
        catalogAB 0 (some "pi_test") (some (intentAt 25000)) payloadAB
        "HYF-20260101-SSSSS" 0 = ⟨[], .serverError, 0⟩ ∧
    (ordersWithPi
        (confirm_order_post
          (confirm_order_post [] catalogAB 0 (some "pi_test") (some (intentAt 25000)) payloadAB
            "HYF-20260101-RRRRR" 0).db
          catalogAB 0 (some "pi_test") (some (intentAt 25000)) payloadAB
          "HYF-20260101-SSSSS" 0).db "pi_test").length = 0 := by decide

/-- C3. Whenever a request reaches the order-creation step — on the
synchronous confirmation path (intent succeeded, no existing order, valid
payload, amount within tolerance) or on the PayMe creation path (valid
payload, positive total) — the call of CheckoutSerializer.create_order
raises TypeError, because the signature accepts only stripe_payment_intent_id
while the callers also pass payment_method (and, for PayMe, payment_currency,
exchange_rate and total_usd). The TypeError is raised at the call, before the
body and hence before any database write, is not an IntegrityError, and so
reaches the outer handler: the request is answered with the generic 500, the
store is unchanged and no email is attempted. -/
theorem create_order_extra_kwargs_type_error
    (db : List Order) (catalog : List Product) (today : Nat) (piId : String)
    (pi : StripeIntent) (p : CheckoutPayload) (fresh : String) (now : Nat)
    (sub fee disc total : Int)
    (hid : piId ≠ "")
    (hst : pi.status = "succeeded")
    (hex : qsFirstByPi db piId = none)
    (hval : checkout_serializer_valid catalog today p = true)
    (hcalc : calculate_order_total catalog p.items = some (sub, fee, disc, total))
    (hamt : amount_mismatch pi.amountCents total = false)
    (hpos : 0 < total) :
    confirm_order_post db catalog today (some piId) (some pi) p fresh now
        = ⟨db, .serverError, 0⟩ ∧
    create_payme_order_post db catalog today p fresh = ⟨db, .serverError, 0⟩ := by
  have h0 : (piId == "") = false := beq_eq_false_iff_ne.mpr hid
  have hcc : call_create_order confirm_call_kwargs db catalog p (some piId) fresh
      = .error .typeError := rfl
  have hcp : call_create_order payme_call_kwargs db catalog p none fresh
      = .error .typeError := rfl
  have hnle : ¬ total ≤ 0 := not_le.mpr hpos
  constructor
  · simp [confirm_order_post, pyTruthy, h0, hst, hex, hval, hcalc, hamt, hcc]
  · simp [create_payme_order_post, hval, hcalc, hnle, hcp]

/-- C3 witness at the worked-example inputs. -/
theorem create_order_extra_kwargs_type_error_witness :
    confirm_order_post [] catalogAB 0 (some "pi_test") (some (intentAt 25000)) payloadAB
        "HYF-20260101-CCCCC" 0 = ⟨[], .serverError, 0⟩ ∧
    create_payme_order_post [] catalogAB 0 payloadAB "HYF-20260101-CCCCC"
        = ⟨[], .serverError, 0⟩ :=
  create_order_extra_kwargs_type_error [] catalogAB 0 "pi_test" (intentAt 25000) payloadAB
    "HYF-20260101-CCCCC" 0 25000 0 0 25000 (by decide) rfl rfl (by decide) (by decide)
    (by decide) (by decide)

/-- C7. When the store already holds exactly one order for the payment
reference and the gateway reports the intent succeeded, confirm_order
returns that order unchanged with the 200 OK (not the 201 Created) response,
writes nothing and attempts no email; running the call a second time on the
resulting store returns the very same order again, and the store still holds
exactly that one row for the reference — so two sequential calls dispatch
zero notifications in total, which is at most one. -/
theorem confirm_existing_order_idempotent
    (db : List Order) (catalog : List Product) (today : Nat) (piId : String)
    (pi : StripeIntent) (p : CheckoutPayload) (fresh fresh2 : String) (now now2 : Nat)
    (o : Order)
    (hid : piId ≠ "")
    (hst : pi.status = "succeeded")
    (hex : ordersWithPi db piId = [o]) :
    confirm_order_post db catalog today (some piId) (some pi) p fresh now
        = ⟨db, .ok o, 0⟩ ∧
    confirm_order_post
        (confirm_order_post db catalog today (some piId) (some pi) p fresh now).db
        catalog today (some piId) (some pi) p fresh2 now2 = ⟨db, .ok o, 0⟩ ∧
    ordersWithPi
        (confirm_order_post
          (confirm_order_post db catalog today (some piId) (some pi) p fresh now).db
          catalog today (some piId) (some pi) p fresh2 now2).db piId = [o] := by
  have h0 : (piId == "") = false := beq_eq_false_iff_ne.mpr hid
  have hq : qsFirstByPi db piId = some o := by simp [qsFirstByPi, hex]
  have h1 : confirm_order_post db catalog today (some piId) (some pi) p fresh now
      = ⟨db, .ok o, 0⟩ := by
    simp [confirm_order_post, pyTruthy, h0, hst, hq]
  have h2 : confirm_order_post db catalog today (some piId) (some pi) p fresh2 now2
      = ⟨db, .ok o, 0⟩ := by
    simp [confirm_order_post, pyTruthy, h0, hst, hq]
  refine ⟨h1, ?_, ?_⟩
  · rw [h1]
    exact h2
  · rw [h1]
    rw [h2]
    exact hex

/-- C7 witness: a store holding exactly the one order for the reference. -/
theorem confirm_existing_order_idempotent_witness :
    confirm_order_post [orderDup1] catalogAB 0 (some "pi_dup")
        (some ⟨"pi_dup", "succeeded", 25000, some "card", none⟩) payloadAB
        "HYF-20260101-DDDDD" 3 = ⟨[orderDup1], .ok orderDup1, 0⟩ ∧
    confirm_order_post
        (confirm_order_post [orderDup1] catalogAB 0 (some "pi_dup")
          (some ⟨"pi_dup", "succeeded", 25000, some "card", none⟩) payloadAB
          "HYF-20260101-DDDDD" 3).db
        catalogAB 0 (some "pi_dup")
        (some ⟨"pi_dup", "succeeded", 25000, some "card", none⟩) payloadAB
        "HYF-20260101-EEEEE" 4 = ⟨[orderDup1], .ok orderDup1, 0⟩ ∧
    ordersWithPi
        (confirm_order_post
          (confirm_order_post [orderDup1] catalogAB 0 (some "pi_dup")
            (some ⟨"pi_dup", "succeeded", 25000, some "card", none⟩) payloadAB
            "HYF-20260101-DDDDD" 3).db
          catalogAB 0 (some "pi_dup")
          (some ⟨"pi_dup", "succeeded", 25000, some "card", none⟩) payloadAB
          "HYF-20260101-EEEEE" 4).db "pi_dup" = [orderDup1] :=
  confirm_existing_order_idempotent [orderDup1] catalogAB 0 "pi_dup"
    ⟨"pi_dup", "succeeded", 25000, some "card", none⟩ payloadAB
    "HYF-20260101-DDDDD" "HYF-20260101-EEEEE" 3 4 orderDup1 (by decide) rfl (by decide)

/-- Skip branch of the webhook endpoint: a delivery whose event identifier is
already recorded in the dedup ledger is answered 200 with the state left
untouched and no handler run. -/
theorem webhook_skip_when_recorded (s : WebhookDb) (ev : StripeEvent) (now : Nat)
    (h : s.events.any (fun e => e.event_id == ev.id) = true) :
    stripe_webhook_post s (some ev) now = (s, 200) := by
  simp [stripe_webhook_post, webhook_get_or_create, h]

/-- C8. After any delivery of an event, its identifier is recorded in the
dedup ledger (the get-or-create insert happens before dispatch); therefore
delivering the same event a second time is a complete no-op: the state —
orders included, so the mark-paid side effect cannot run again — is returned
unchanged with a 200. Side effects of an event identifier hence execute at
most once across redeliveries. -/
theorem webhook_second_delivery_noop (db : WebhookDb) (ev : StripeEvent) (now now2 : Nat) :
    (stripe_webhook_post db (some ev) now).1.events.any (fun e => e.event_id == ev.id)
        = true ∧
    stripe_webhook_post (stripe_webhook_post db (some ev) now).1 (some ev) now2
      = ((stripe_webhook_post db (some ev) now).1, 200) := by
  have hrec : (stripe_webhook_post db (some ev) now).1.events.any
      (fun e => e.event_id == ev.id) = true := by
    cases hb : db.events.any (fun e => e.event_id == ev.id) with
    | true =>
      rw [webhook_skip_when_recorded db ev now hb]
      exact hb
    | false =>
      have h2 : (stripe_webhook_post db (some ev) now).1.events
          = db.events ++ [⟨ev.id, ev.etype⟩] := by
        simp [stripe_webhook_post, webhook_get_or_create, hb]
      rw [h2]
      simp [List.any_append]
  exact ⟨hrec, webhook_skip_when_recorded _ ev now2 hrec⟩

/-- C9. The shared mark-paid primitive is a true no-op on an order already
paid: the early return of orders/models.py line 189 hands the order back
with every field — payment_status, status, paid_at, payment_verified_at, the
external reference, and all the rest — unchanged, whatever reference and
clock it is invoked with. Consequently re-confirming an already-paid
peer-transfer order through the manual confirmation endpoint succeeds with
the 200 already-confirmed response, leaves the store (so the paid_at stamped
by the first confirmation) unchanged, and dispatches no further email. -/
theorem mark_paid_noop_and_admin_reconfirm
    (db : List Order) (o : Order) (piArg : Option String) (now now2 : Nat)
    (hp : o.payment_status = "paid")
    (hn : o.order_number ≠ "")
    (hdb : db.filter (fun x => x.order_number == o.order_number) = [o]) :
    o.mark_as_paid piArg now = o ∧
    confirm_payme_post db (some o.order_number) now2 = ⟨db, .okOrder o, 0⟩ := by
  have h0 : (o.order_number == "") = false := beq_eq_false_iff_ne.mpr hn
  constructor
  · simp [Order.mark_as_paid, hp]
  · simp [confirm_payme_post, pyTruthy, h0, hdb, hp]

/-- C9 witness at a paid peer-transfer order confirmed at tick 3 and
re-confirmed at tick 9. -/
theorem mark_paid_noop_and_admin_reconfirm_witness :
    paidPayMeOrder.mark_as_paid (some "pi_late") 9 = paidPayMeOrder ∧
    confirm_payme_post [paidPayMeOrder] (some paidPayMeOrder.order_number) 9
      = ⟨[paidPayMeOrder], .okOrder paidPayMeOrder, 0⟩ :=
  mark_paid_noop_and_admin_reconfirm [paidPayMeOrder] paidPayMeOrder (some "pi_late") 9 9
    (by decide) (by decide) (by decide)

/-- C10 counterexample. paidCardOrder is already paid and its payment method
is card_pay, not the peer-transfer method; yet the manual confirmation
endpoint answers the request with the 200 already-confirmed success response
rather than a rejection, because payme_views.py line 230 checks
payment_status before the method guard of line 237. The state is unchanged,
but the claimed warning-or-error rejection does not happen. -/
theorem paid_nonpayme_confirm_accepted :
    paidCardOrder.payment_method = "card_pay" ∧
    paidCardOrder.payment_status = "paid" ∧
    confirm_payme_post [paidCardOrder] (some paidCardOrder.order_number) 9
      = ⟨[paidCardOrder], .okOrder paidCardOrder, 0⟩ := by decide

/-- C10 amended. A non-peer-transfer order is always refused with a warning
and left unchanged by the admin helper path; the confirmation API view
rejects it with an error only when it is not already paid, while an
already-paid non-payme order receives the 200 already-confirmed success
response — in every case the order state is left unchanged and no
notification is dispatched. -/
theorem nonpayme_confirm_rejected_unless_paid
    (db : List Order) (o : Order) (emailOk : Bool) (now now2 : Nat)
    (hm : o.payment_method ≠ "payme")
    (hn : o.order_number ≠ "")
    (hdb : db.filter (fun x => x.order_number == o.order_number) = [o]) :
    do_confirm_payme db o emailOk now = ⟨db, false, "not_a_payme_order", 0⟩ ∧
    (o.payment_status ≠ "paid" →
      confirm_payme_post db (some o.order_number) now2
        = ⟨db, .badRequest "not_payme_order", 0⟩) ∧
    (o.payment_status = "paid" →
      confirm_payme_post db (some o.order_number) now2 = ⟨db, .okOrder o, 0⟩) := by
  have h0 : (o.order_number == "") = false := beq_eq_false_iff_ne.mpr hn
  refine ⟨?_, ?_, ?_⟩
  · simp [do_confirm_payme, hm]
  · intro hnp
    simp [confirm_payme_post, pyTruthy, h0, hdb, hnp, hm]
  · intro hp
    simp [confirm_payme_post, pyTruthy, h0, hdb, hp]

/-- C10 amended, witness at a pending card order. -/
theorem nonpayme_confirm_rejected_unless_paid_witness :
    do_confirm_payme [pendingCardOrder] pendingCardOrder true 9
        = ⟨[pendingCardOrder], false, "not_a_payme_order", 0⟩ ∧
    (pendingCardOrder.payment_status ≠ "paid" →
      confirm_payme_post [pendingCardOrder] (some pendingCardOrder.order_number) 9
        = ⟨[pendingCardOrder], .badRequest "not_payme_order", 0⟩) ∧
    (pendingCardOrder.payment_status = "paid" →
      confirm_payme_post [pendingCardOrder] (some pendingCardOrder.order_number) 9
        = ⟨[pendingCardOrder], .okOrder pendingCardOrder, 0⟩) :=
  nonpayme_confirm_rejected_unless_paid [pendingCardOrder] pendingCardOrder true 9 9
    (by decide) (by decide) (by decide)
